import Mathlib

/-!
Shallow embedding of `src/ml/rag_bot.py` (the `RAGChatBot` orchestrator of the
impulse repository) and proofs about its specified behaviour.

External capabilities (document parsing, text splitting, embedding distance
retrieval, language-model generation) are parameters of the model (`Env`); the
embedded code is the orchestration layer itself: loader dispatch, vector-store
lifecycle, persistence, conversation chain and memory management.

Python exceptions are embedded as an explicit error type; operations that can
raise return `Except`, and operations on an already-constructed object carry
the object's state at raise time in the error, mirroring the fact that a
Python exception leaves the receiver in whatever state the method had reached.

Vector stores are heap-allocated objects referenced by index, because the
conversation chain's retriever captures the vector-store *object* while
`remove_sources` rebinds the `vector_store` attribute to a fresh object:
reference identity is observable and must be modelled.
-/

deriving instance DecidableEq for Except

namespace RAG

/-- A source descriptor: the `(mode, source)` tuples consumed by `_load_data`.
`file` and `url` carry the source string; `confluence` carries the dictionary
fields accessed by the code (each `Option` models presence of the dict key);
`unknown` is any other mode string. -/
inductive Source where
  | file (path : String)
  | url (address : String)
  | confluence (url username api_key space_key : Option String) (limit : Option Nat)
  | unknown (mode : String)
deriving DecidableEq, Repr

/-- The exception surface of the orchestrator, one constructor per raise site:
`unsupportedFileFormat`, `unsupportedUrlFormat`, `unsupportedMode` are the
`ValueError`s of `_load_data`; `keyError` is the `KeyError` raised by a
confluence dict access with the missing key; `notReady` is the `ValueError`
raised by `chat` when no conversation chain exists; `attributeError` is the
`AttributeError` of an access to an attribute never assigned. -/
inductive PyError where
  | unsupportedFileFormat (source : String)
  | unsupportedUrlFormat (source : String)
  | unsupportedMode (mode : String)
  | keyError (field : String)
  | notReady
  | attributeError (attr : String)
deriving DecidableEq, Repr

/-- The loader objects `_load_data` constructs, one constructor per branch. -/
inductive Loader where
  | textLoader (path : String)
  | pyPDFLoader (path : String)
  | csvLoader (path : String)
  | bsHTMLLoader (path : String)
  | unstructuredMarkdownLoader (path : String)
  | unstructuredXMLLoader (path : String)
  | jsonLoader (path : String)
  | unstructuredExcelLoader (path : String)
  | webBaseLoader (address : String)
  | confluenceLoader (url username api_key space_key : String) (limit : Nat)
deriving DecidableEq, Repr

/-- Python `str.lower()`, over the character list of the string. -/
def strLower (s : String) : String := ⟨s.data.map Char.toLower⟩

/-- Python `str.endswith(t)`, over the character lists of the strings. -/
def strEndsWith (s t : String) : Bool := t.data.isSuffixOf s.data

/-- Python `str.startswith(t)`, over the character lists of the strings. -/
def strStartsWith (s t : String) : Bool := t.data.isPrefixOf s.data

/-- Python dict access `d[k]`: the value when the key is present, `KeyError`
otherwise. -/
def require (field : String) : Option α → Except PyError α
  | some v => .ok v
  | none => .error (.keyError field)

/-- The dispatch of one `(mode, source)` tuple, transcribed from the
`if`/`elif` chain of `_load_data` (lines 128-169): file extensions are
matched on the lowercased path in the source's order, a url must start with
`http://` or `https://`, a confluence source has its five dict fields read in
the source's order, and any other mode raises. -/
def dispatchSource : Source → Except PyError Loader
  | .file source =>
    if strEndsWith (strLower source) ".txt" then .ok (.textLoader source)
    else if strEndsWith (strLower source) ".pdf" then .ok (.pyPDFLoader source)
    else if strEndsWith (strLower source) ".csv" then .ok (.csvLoader source)
    else if strEndsWith (strLower source) ".html" || strEndsWith (strLower source) ".htm" then
      .ok (.bsHTMLLoader source)
    else if strEndsWith (strLower source) ".md" then .ok (.unstructuredMarkdownLoader source)
    else if strEndsWith (strLower source) ".xml" then .ok (.unstructuredXMLLoader source)
    else if strEndsWith (strLower source) ".json" then .ok (.jsonLoader source)
    else if strEndsWith (strLower source) ".xls" || strEndsWith (strLower source) ".xlsx" then
      .ok (.unstructuredExcelLoader source)
    else .error (.unsupportedFileFormat source)
  | .url source =>
    if strStartsWith source "http://" || strStartsWith source "https://" then
      .ok (.webBaseLoader source)
    else .error (.unsupportedUrlFormat source)
  | .confluence url username api_key space_key limit => do
    let u ← require "url" url
    let un ← require "username" username
    let ak ← require "api_key" api_key
    let sk ← require "space_key" space_key
    let lim ← require "limit" limit
    .ok (.confluenceLoader u un ak sk lim)
  | .unknown mode => .error (.unsupportedMode mode)

/-- The loop of `_load_data`: build one loader per source in input order,
raising at the first source that does not dispatch. -/
def buildLoaders : List Source → Except PyError (List Loader)
  | [] => .ok []
  | s :: rest => do
    let l ← dispatchSource s
    let ls ← buildLoaders rest
    .ok (l :: ls)

/-- The external capabilities the orchestrator delegates to: what each loader
loads, how the splitter chunks (it is a fixed deterministic function of the
configured chunk size and overlap, folded into `split`), how the vector index
ranks entries for a query, and what the language model generates from a
question, retrieved context and chat history. -/
structure Env (Doc Chunk : Type) where
  loaderDocs : Loader → List Doc
  split : List Doc → List Chunk
  retrieve : List (Chunk × String) → String → Nat → List Chunk
  generate : String → List Chunk → List (String × String) → String

/-- `_load_data`: dispatch every source, then `MergedDataLoader.load` merges
each loader's documents in input order. -/
def loadData (env : Env Doc Chunk) (sources : List Source) : Except PyError (List Doc) :=
  (buildLoaders sources).map (fun ls => ls.flatMap env.loaderDocs)

/-- A FAISS vector store: `embeddingModel` is the embedding function the store
object currently holds (used for queries and for `add_documents`); `entries`
records each indexed chunk together with the name of the embedding model that
computed its stored vector. -/
structure VectorStore (Chunk : Type) where
  embeddingModel : String
  entries : List (Chunk × String)
deriving DecidableEq, Repr

/-- `FAISS.from_documents`: embed every chunk with the given model. -/
def VectorStore.fromDocuments (docs : List Chunk) (model : String) : VectorStore Chunk :=
  { embeddingModel := model, entries := docs.map (fun c => (c, model)) }

/-- `add_documents`: append chunks embedded with the store's own embedding
function, keeping existing vectors. -/
def VectorStore.addDocuments (vs : VectorStore Chunk) (docs : List Chunk) : VectorStore Chunk :=
  { vs with entries := vs.entries ++ docs.map (fun c => (c, vs.embeddingModel)) }

/-- `FAISS.load_local`: deserialize the persisted entries (whose vectors keep
the model that computed them) and attach the embeddings passed by the caller
as the store's query-time embedding function. -/
def VectorStore.loadLocal (entries : List (Chunk × String)) (model : String) : VectorStore Chunk :=
  { embeddingModel := model, entries := entries }

/-- The `ConversationalRetrievalChain`: it captures the vector-store object
(`retrieverRef` is a heap reference) and the retrieval depth `k`. -/
structure Chain where
  retrieverRef : Nat
  k : Nat
deriving DecidableEq, Repr

/-- The observable state of a `RAGChatBot` object plus the content persisted
at its `save_path`. `documents`, `docs` and `vector_store` are `Option`
because `__init__` assigns them only when `data_sources` is non-empty
(`none` models the attribute never having been created). The heap holds the
vector-store objects ever allocated; `vector_store` and `Chain.retrieverRef`
are references into it. `disk` is the serialized index at `save_path`
(`none` models `os.path.exists(save_path)` being false). -/
structure BotState (Doc Chunk : Type) where
  data_sources : List Source
  embeddings : String
  k_retriever : Nat
  system_prompt : Option String
  documents : Option (List Doc)
  docs : Option (List Chunk)
  heap : List (VectorStore Chunk)
  vector_store : Option Nat
  conversation_chain : Option Chain
  chat_memory : Option (List (String × String))
  disk : Option (List (Chunk × String))
deriving DecidableEq

/-- Dereference a heap reference (total; references produced by the
operations below are always in range). -/
def heapGet (heap : List (VectorStore Chunk)) (r : Nat) : VectorStore Chunk :=
  heap.getD r { embeddingModel := "", entries := [] }

/-- `_create_vector_store` (lines 200-211): if `save_path` exists, load the
persisted index with the current embeddings; otherwise build a fresh store
from `self.docs` and save it. Allocates the store on the heap and returns the
reference (the caller assigns it to `vector_store`). Accessing `self.docs`
when it was never assigned raises `AttributeError`. -/
def createVectorStore (s : BotState Doc Chunk) : Except PyError (BotState Doc Chunk × Nat) :=
  match s.disk with
  | some persisted =>
    let vs := VectorStore.loadLocal persisted s.embeddings
    .ok ({ s with heap := s.heap ++ [vs] }, s.heap.length)
  | none =>
    match s.docs with
    | none => .error (.attributeError "docs")
    | some ds =>
      let vs := VectorStore.fromDocuments ds s.embeddings
      .ok ({ s with heap := s.heap ++ [vs], disk := some vs.entries }, s.heap.length)

/-- `_initialize_conversation_chain` (lines 95-117): build a retriever over
the current `vector_store` object with `k = k_retriever`, create a fresh
empty `EnhancedConversationBufferMemory`, and build the chain from them. -/
def initializeConversationChain (s : BotState Doc Chunk) : Except PyError (BotState Doc Chunk) :=
  match s.vector_store with
  | none => .error (.attributeError "vector_store")
  | some r =>
    .ok { s with chat_memory := some []
               , conversation_chain := some { retrieverRef := r, k := s.k_retriever } }

/-- `__init__` (lines 34-93). The llm and the prompt template are external
capabilities outside the embedded state; `chunk_size`/`chunk_overlap` are
folded into `Env.split` and `save_path` into the initial disk content
`disk0`. When `data_sources` is empty (Python falsiness of the list) nothing
beyond plain attribute assignment happens; otherwise the data is loaded,
split, indexed and the chain initialized. -/
def mkBot (env : Env Doc Chunk) (data_sources : List Source) (embeddings_model : String)
    (k_retriever : Nat) (system_prompt : Option String)
    (disk0 : Option (List (Chunk × String))) : Except PyError (BotState Doc Chunk) :=
  let s0 : BotState Doc Chunk :=
    { data_sources := data_sources, embeddings := embeddings_model
    , k_retriever := k_retriever, system_prompt := system_prompt
    , documents := none, docs := none, heap := [], vector_store := none
    , conversation_chain := none, chat_memory := none, disk := disk0 }
  if data_sources.isEmpty then .ok s0
  else do
    let documents ← loadData env data_sources
    let ds := env.split documents
    let s1 := { s0 with documents := some documents, docs := some ds }
    let (s2, r) ← createVectorStore s1
    initializeConversationChain { s2 with vector_store := some r }

/-- `EnhancedConversationBufferMemory.save_context` (lines 19-30): append the
user message and the ai message of one turn to the chat memory. -/
def saveContext (memory : List (String × String)) (question answer : String) :
    List (String × String) :=
  memory ++ [(question, answer)]

/-- `chat` (lines 119-124): raise if no conversation chain exists; otherwise
run the chain, which retrieves the top-k chunks from the vector store the
retriever captured, generates an answer from question, retrieved context and
chat history, records the turn in memory, and returns
`(answer, source_documents)`. -/
def chat (env : Env Doc Chunk) (s : BotState Doc Chunk) (query : String) :
    Except (PyError × BotState Doc Chunk) (BotState Doc Chunk × String × List Chunk) :=
  match s.conversation_chain with
  | none => .error (.notReady, s)
  | some chain =>
    let store := heapGet s.heap chain.retrieverRef
    let retrieved := env.retrieve store.entries query chain.k
    let history := s.chat_memory.getD []
    let answer := env.generate query retrieved history
    .ok ({ s with chat_memory := some (saveContext history query answer) }, answer, retrieved)

/-- `add_sources` (lines 213-221): load and split the new sources (raising
before any state is touched on a bad source), then `add_documents` on the
existing vector-store object (mutating it in place), save it, and extend the
stored source list. Accessing `self.vector_store` when it was never assigned
raises `AttributeError`. -/
def addSources (env : Env Doc Chunk) (s : BotState Doc Chunk) (newSources : List Source) :
    Except (PyError × BotState Doc Chunk) (BotState Doc Chunk) :=
  match loadData env newSources with
  | .error e => .error (e, s)
  | .ok newDocuments =>
    let newDocs := env.split newDocuments
    match s.vector_store with
    | none => .error (.attributeError "vector_store", s)
    | some r =>
      let store := (heapGet s.heap r).addDocuments newDocs
      .ok { s with heap := s.heap.set r store
                 , disk := some store.entries
                 , data_sources := s.data_sources ++ newSources }

/-- `remove_sources` (lines 223-233): filter the stored source list, reload
and resplit the entire remaining set (a raise here leaves the list already
filtered), build a fresh vector store from the result, rebind
`vector_store` to it and save it. The conversation chain is not touched. -/
def removeSources (env : Env Doc Chunk) (s : BotState Doc Chunk) (sourcesToRemove : List Source) :
    Except (PyError × BotState Doc Chunk) (BotState Doc Chunk) :=
  let remaining := s.data_sources.filter (fun src => decide (src ∉ sourcesToRemove))
  let s1 := { s with data_sources := remaining }
  match loadData env remaining with
  | .error e => .error (e, s1)
  | .ok documents =>
    let ds := env.split documents
    let vs := VectorStore.fromDocuments ds s1.embeddings
    .ok { s1 with documents := some documents, docs := some ds
                , heap := s1.heap ++ [vs], vector_store := some s1.heap.length
                , disk := some vs.entries }

/-- `change_retriever` (lines 244-248): replace the embeddings, then call
`_create_vector_store` (which loads from `save_path` when it exists), rebind
`vector_store`, and re-initialize the conversation chain. -/
def changeRetriever (s : BotState Doc Chunk) (newEmbeddingsModel : String) :
    Except (PyError × BotState Doc Chunk) (BotState Doc Chunk) :=
  let s1 := { s with embeddings := newEmbeddingsModel }
  match createVectorStore s1 with
  | .error e => .error (e, s1)
  | .ok (s2, r) =>
    let s3 := { s2 with vector_store := some r }
    match initializeConversationChain s3 with
    | .error e => .error (e, s3)
    | .ok s4 => .ok s4

/-- `change_prompt` (lines 250-274): replace the system prompt (the template
itself is an external rendering capability) and re-initialize the
conversation chain. -/
def changePrompt (s : BotState Doc Chunk) (newSystemPrompt : String) :
    Except (PyError × BotState Doc Chunk) (BotState Doc Chunk) :=
  let s1 := { s with system_prompt := some newSystemPrompt }
  match initializeConversationChain s1 with
  | .error e => .error (e, s1)
  | .ok s2 => .ok s2

/-- `change_model` (lines 235-242): replace the llm (an external generation
capability outside the embedded state) and re-initialize the conversation
chain. -/
def changeModel (s : BotState Doc Chunk) : Except (PyError × BotState Doc Chunk) (BotState Doc Chunk) :=
  match initializeConversationChain s with
  | .error e => .error (e, s)
  | .ok s1 => .ok s1

/-- Run `chat` on each query in order, stopping at the first raise. -/
def runChats (env : Env Doc Chunk) :
    BotState Doc Chunk → List String →
    Except (PyError × BotState Doc Chunk) (BotState Doc Chunk)
  | s, [] => .ok s
  | s, q :: qs =>
    match chat env s q with
    | .error e => .error e
    | .ok (s1, _, _) => runChats env s1 qs

/-! ## Helper lemmas -/

lemma heapGet_concat (heap : List (VectorStore Chunk)) (vs : VectorStore Chunk) :
    heapGet (heap ++ [vs]) heap.length = vs := by
  simp [heapGet, List.getD, List.getElem?_concat_length]

lemma heapGet_append_lt (heap l2 : List (VectorStore Chunk)) (r : Nat)
    (h : r < heap.length) : heapGet (heap ++ l2) r = heapGet heap r := by
  simp [heapGet, List.getD, List.getElem?_append, h]

lemma heapGet_set_eq (heap : List (VectorStore Chunk)) (r : Nat) (vs : VectorStore Chunk)
    (h : r < heap.length) : heapGet (heap.set r vs) r = vs := by
  simp [heapGet, List.getD, List.getElem?_set_self, h]

lemma buildLoaders_error_of_mem (sources : List Source) (src : Source) (e : PyError)
    (hmem : src ∈ sources) (hdisp : dispatchSource src = .error e) :
    ∃ e2, buildLoaders sources = .error e2 := by
  induction sources with
  | nil => simp at hmem
  | cons a rest ih =>
    rcases List.mem_cons.mp hmem with h | h
    · subst h
      exact ⟨e, by simp only [buildLoaders, hdisp]; rfl⟩
    · cases ha : dispatchSource a with
      | error e3 => exact ⟨e3, by simp only [buildLoaders, ha]; rfl⟩
      | ok l =>
        obtain ⟨e2, h2⟩ := ih h
        exact ⟨e2, by simp only [buildLoaders, ha, h2]; rfl⟩

lemma loadData_error_of_mem (env : Env Doc Chunk) (sources : List Source) (src : Source)
    (e : PyError) (hmem : src ∈ sources) (hdisp : dispatchSource src = .error e) :
    ∃ e2, loadData env sources = .error e2 := by
  obtain ⟨e2, h2⟩ := buildLoaders_error_of_mem sources src e hmem hdisp
  exact ⟨e2, by simp [loadData, h2, Except.map]⟩

/-- When `vector_store` was never assigned, `add_sources` cannot succeed:
either the new batch itself fails to load, or the unguarded
`self.vector_store` access raises. -/
lemma addSources_none_store (env : Env Doc Chunk) (s : BotState Doc Chunk)
    (h : s.vector_store = none) (newSources : List Source) :
    (∀ s1, addSources env s newSources ≠ .ok s1) ∧
    (∀ newDocuments, loadData env newSources = .ok newDocuments →
      addSources env s newSources = .error (.attributeError "vector_store", s)) ∧
    (∀ e, loadData env newSources = .error e →
      addSources env s newSources = .error (e, s)) := by
  refine ⟨?_, ?_, ?_⟩
  · intro s1
    cases hl : loadData env newSources with
    | error e => simp [addSources, hl]
    | ok d => simp [addSources, hl, h]
  · intro d hl
    simp [addSources, hl, h]
  · intro e hl
    simp [addSources, hl]

/-- Construction with an empty source list only assigns plain attributes. -/
lemma mkBot_nil (env : Env Doc Chunk) (em : String) (k : Nat) (sp : Option String)
    (d : Option (List (Chunk × String))) :
    mkBot env [] em k sp d = .ok
      { data_sources := [], embeddings := em, k_retriever := k, system_prompt := sp
      , documents := none, docs := none, heap := [], vector_store := none
      , conversation_chain := none, chat_memory := none, disk := d } := rfl

/-! ## A concrete environment for witnesses and counterexamples -/

/-- A small concrete instantiation of the external capabilities, with
documents and chunks both plain strings: each loader yields one document,
splitting is the identity, retrieval takes the first `k` chunks, and
generation tags the question. -/
def demoEnv : Env String String :=
  { loaderDocs := fun l =>
      match l with
      | .textLoader p => [p]
      | .unstructuredMarkdownLoader p => [p]
      | .webBaseLoader a => [a]
      | _ => ["doc"]
  , split := fun ds => ds
  , retrieve := fun entries _q k => (entries.map Prod.fst).take k
  , generate := fun q _ctx _hist => "ans:" ++ q }

/-- Inert state used only as the fallback of the extractors below. -/
def fallbackBot : BotState String String :=
  { data_sources := [], embeddings := "", k_retriever := 0, system_prompt := none
  , documents := none, docs := none, heap := [], vector_store := none
  , conversation_chain := none, chat_memory := none, disk := none }

/-- Extract the state from a successful construction. -/
def okBot : Except PyError (BotState String String) → BotState String String
  | .ok s => s
  | .error _ => fallbackBot

/-- Extract the state from a successful lifecycle operation. -/
def okRun : Except (PyError × BotState String String) (BotState String String) →
    BotState String String
  | .ok s => s
  | .error e => e.2

/-- Extract the result of a successful `chat`. -/
def okChat :
    Except (PyError × BotState String String)
      (BotState String String × String × List String) →
    BotState String String × String × List String
  | .ok v => v
  | .error e => (e.2, "", [])

/-- A bot built from one text source with embeddings model `modelA` on a
fresh save path. -/
def botA : BotState String String :=
  okBot (mkBot demoEnv [Source.file "a.txt"] "modelA" 5 none none)

/-- `botA` after `change_retriever("modelB")`. -/
def botA2 : BotState String String := okRun (changeRetriever botA "modelB")

/-- A bot built from two file sources. -/
def botTwo : BotState String String :=
  okBot (mkBot demoEnv [Source.file "a.txt", Source.file "b.md"] "m" 5 none none)

/-- `botTwo` after `remove_sources([('file', 'b.md')])`. -/
def botTwoR : BotState String String :=
  okRun (removeSources demoEnv botTwo [Source.file "b.md"])

/-- `botA` after one successful `chat("q1")`. -/
def botAChat : BotState String String × String × List String :=
  okChat (chat demoEnv botA "q1")

/-- The chatted bot after `change_prompt("p")`. -/
def botAChatP : BotState String String := okRun (changePrompt botAChat.1 "p")

/-- A bot constructed with an empty `data_sources` list. -/
def botEmpty : BotState String String :=
  okBot (mkBot demoEnv [] "m" 5 none none)

/-- A bot constructed while `save_path` already holds a persisted index. -/
def botLoaded : BotState String String :=
  okBot (mkBot demoEnv [Source.file "a.txt"] "m2" 5 none (some [("x", "m0")]))

/-- `botA` after `add_sources([('file', 'c.txt')])`. -/
def botAAdd : BotState String String :=
  okRun (addSources demoEnv botA [Source.file "c.txt"])

/-! ## Claim theorems -/

/-- C1: the claim says `change_retriever(new_embeddings_model)` forces a full
rebuild so that only vectors computed with the new model remain. The code
violates it: `change_retriever` calls `_create_vector_store`, which reloads
the index persisted at `save_path` whenever it exists (and it exists after
the initial build saved it), so the index still holds the vectors computed
with the previous model. Concretely: a bot built from `('file', 'a.txt')`
with model `modelA` on a fresh save path, after `change_retriever('modelB')`,
has `embeddings = modelB` but its vector store still holds the entry embedded
with `modelA`. -/
theorem change_retriever_keeps_old_model_vectors :
    mkBot demoEnv [Source.file "a.txt"] "modelA" 5 none none = .ok botA ∧
    botA.disk = some [("a.txt", "modelA")] ∧
    changeRetriever botA "modelB" = .ok botA2 ∧
    botA2.embeddings = "modelB" ∧
    botA2.vector_store = some 1 ∧
    (heapGet botA2.heap 1).entries = [("a.txt", "modelA")] := by decide

/-- C6: `add_sources` loads and splits the new batch before touching any
state, so if the batch contains a source that does not dispatch, the call
raises and the error carries the receiver exactly as it was before the call:
vector index in memory (`heap`), persisted copy (`disk`) and stored source
list are untouched, and no document of the batch is ingested. -/
theorem add_sources_atomic_on_bad_source {Doc Chunk : Type} (env : Env Doc Chunk)
    (s : BotState Doc Chunk) (newSources : List Source) (src : Source) (e : PyError)
    (hmem : src ∈ newSources) (hdisp : dispatchSource src = .error e) :
    ∃ e2, addSources env s newSources = .error (e2, s) := by
  obtain ⟨e2, h2⟩ := loadData_error_of_mem env newSources src e hmem hdisp
  exact ⟨e2, by simp [addSources, h2]⟩

/-- C6 witness: a batch containing an unsupported file aborts `add_sources`
with the receiver state unchanged. -/
theorem add_sources_atomic_on_bad_source_witness :
    Source.file "virus.exe" ∈ [Source.file "ok.txt", Source.file "virus.exe"] ∧
    dispatchSource (Source.file "virus.exe") = .error (.unsupportedFileFormat "virus.exe") ∧
    ∃ e2, addSources demoEnv botA [Source.file "ok.txt", Source.file "virus.exe"] =
      .error (e2, botA) :=
  ⟨by decide, by decide,
    add_sources_atomic_on_bad_source demoEnv botA
      [Source.file "ok.txt", Source.file "virus.exe"]
      (Source.file "virus.exe") (.unsupportedFileFormat "virus.exe")
      (by decide) (by decide)⟩

/-- C2: after a successful `remove_sources(R)`, the stored source list is the
prior list filtered by membership in `R`, and the vector store now referenced
by `vector_store` — and the copy persisted at `save_path` — holds exactly the
chunks obtained by reloading and resplitting that remaining source list. -/
theorem remove_sources_exact {Doc Chunk : Type} (env : Env Doc Chunk)
    (s : BotState Doc Chunk) (sourcesToRemove : List Source) (s1 : BotState Doc Chunk)
    (h : removeSources env s sourcesToRemove = .ok s1) :
    ∃ documents,
      loadData env (s.data_sources.filter (fun src => decide (src ∉ sourcesToRemove))) =
        .ok documents ∧
      s1.data_sources = s.data_sources.filter (fun src => decide (src ∉ sourcesToRemove)) ∧
      ∃ r, s1.vector_store = some r ∧
        (heapGet s1.heap r).entries.map Prod.fst = env.split documents ∧
        s1.disk = some (heapGet s1.heap r).entries := by
  simp only [removeSources] at h
  split at h
  next e hl => exact absurd h (by simp)
  next documents hl =>
    injection h with h
    subst h
    refine ⟨documents, hl, rfl, s.heap.length, rfl, ?_, ?_⟩
    · simp [heapGet_concat, VectorStore.fromDocuments, List.map_map, Function.comp_def]
    · simp [heapGet_concat, VectorStore.fromDocuments]

/-- C2 witness: removing `('file', 'b.md')` from a two-source bot leaves
exactly the chunks re-derived from the remaining source. -/
theorem remove_sources_exact_witness :
    removeSources demoEnv botTwo [Source.file "b.md"] = .ok botTwoR ∧
    (∃ documents,
      loadData demoEnv (botTwo.data_sources.filter
        (fun src => decide (src ∉ [Source.file "b.md"]))) = .ok documents ∧
      botTwoR.data_sources = botTwo.data_sources.filter
        (fun src => decide (src ∉ [Source.file "b.md"])) ∧
      ∃ r, botTwoR.vector_store = some r ∧
        (heapGet botTwoR.heap r).entries.map Prod.fst = demoEnv.split documents ∧
        botTwoR.disk = some (heapGet botTwoR.heap r).entries) :=
  ⟨by decide,
    remove_sources_exact demoEnv botTwo [Source.file "b.md"] botTwoR (by decide)⟩

/-- C3: `remove_sources` does not call `_initialize_conversation_chain`, so
after it returns the conversation chain is unchanged and its retriever still
references the pre-removal vector-store object, while `vector_store` now
references a freshly built one; a subsequent `chat` therefore retrieves from
the pre-removal index. -/
theorem remove_sources_leaves_stale_chain {Doc Chunk : Type} (env : Env Doc Chunk)
    (s : BotState Doc Chunk) (sourcesToRemove : List Source) (s1 : BotState Doc Chunk)
    (chain : Chain) (q : String)
    (hchain : s.conversation_chain = some chain)
    (hr : chain.retrieverRef < s.heap.length)
    (h : removeSources env s sourcesToRemove = .ok s1) :
    s1.conversation_chain = some chain ∧
    heapGet s1.heap chain.retrieverRef = heapGet s.heap chain.retrieverRef ∧
    (∃ r, s1.vector_store = some r ∧ r ≠ chain.retrieverRef) ∧
    (∃ s2 answer, chat env s1 q =
      .ok (s2, answer, env.retrieve (heapGet s.heap chain.retrieverRef).entries q chain.k)) := by
  simp only [removeSources] at h
  split at h
  next e hl => exact absurd h (by simp)
  next documents hl =>
    injection h with h
    subst h
    refine ⟨hchain, heapGet_append_lt s.heap _ chain.retrieverRef hr, ⟨s.heap.length, rfl, ?_⟩, ?_⟩
    · exact fun hEq => absurd (hEq ▸ hr) (lt_irrefl _)
    · simp only [chat, hchain, heapGet_append_lt s.heap _ chain.retrieverRef hr]
      exact ⟨_, _, rfl⟩

/-- C3 witness: on the two-source bot, removal leaves the chain pointing at
the old store, and `chat` retrieves the pre-removal entries. -/
theorem remove_sources_leaves_stale_chain_witness :
    botTwo.conversation_chain = some { retrieverRef := 0, k := 5 } ∧
    (0 : Nat) < botTwo.heap.length ∧
    removeSources demoEnv botTwo [Source.file "b.md"] = .ok botTwoR ∧
    (botTwoR.conversation_chain = some { retrieverRef := 0, k := 5 } ∧
     heapGet botTwoR.heap 0 = heapGet botTwo.heap 0 ∧
     (∃ r, botTwoR.vector_store = some r ∧ r ≠ 0) ∧
     (∃ s2 answer, chat demoEnv botTwoR "q" =
        .ok (s2, answer, demoEnv.retrieve (heapGet botTwo.heap 0).entries "q" 5))) :=
  ⟨by decide, by decide, by decide,
    remove_sources_leaves_stale_chain demoEnv botTwo [Source.file "b.md"] botTwoR
      { retrieverRef := 0, k := 5 } "q" (by decide) (by decide) (by decide)⟩

/-- C9 counterexample: the claim says no chat or lifecycle operation removes
earlier turns, but `change_prompt` re-initializes the conversation chain with
a fresh empty memory: after one successful `chat` the history holds one turn,
and after `change_prompt` it is empty. -/
theorem change_prompt_resets_memory :
    mkBot demoEnv [Source.file "a.txt"] "modelA" 5 none none = .ok botA ∧
    chat demoEnv botA "q1" = .ok (botAChat.1, "ans:q1", ["a.txt"]) ∧
    botAChat.1.chat_memory = some [("q1", "ans:q1")] ∧
    changePrompt botAChat.1 "p" = .ok botAChatP ∧
    botAChatP.chat_memory = some [] := by decide

/-- C10 counterexample: the claim says `add_sources` on a bot constructed
with an empty source list always fails with the unguarded attribute access
rather than a defined error kind, but a batch containing an unsupported
source fails earlier, inside `_load_data`, with the Unsupported-Format
error. -/
theorem empty_bot_add_sources_unsupported :
    mkBot demoEnv ([] : List Source) "m" 5 none none = .ok botEmpty ∧
    botEmpty.vector_store = none ∧
    addSources demoEnv botEmpty [Source.file "virus.exe"] =
      .error (.unsupportedFileFormat "virus.exe", botEmpty) := by decide

/-- C10 amended: a bot constructed with an empty `data_sources` list never
creates the vector store, and `add_sources` never succeeds and never builds
an index: if the new batch fails to load, that ingestion error is raised;
otherwise the unguarded `self.vector_store` access raises `AttributeError`
(not one of the defined error kinds). The receiver is unchanged either
way. -/
theorem empty_bot_add_sources_never_builds {Doc Chunk : Type} (env : Env Doc Chunk)
    (em : String) (k : Nat) (sp : Option String) (d : Option (List (Chunk × String)))
    (s0 : BotState Doc Chunk) (h : mkBot env [] em k sp d = .ok s0) :
    s0.vector_store = none ∧
    ∀ newSources,
      (∀ s1, addSources env s0 newSources ≠ .ok s1) ∧
      (∀ newDocuments, loadData env newSources = .ok newDocuments →
        addSources env s0 newSources = .error (.attributeError "vector_store", s0)) ∧
      (∀ e, loadData env newSources = .error e →
        addSources env s0 newSources = .error (e, s0)) := by
  rw [mkBot_nil] at h
  injection h with h
  subst h
  exact ⟨rfl, fun newSources => addSources_none_store env _ rfl newSources⟩

/-- C10 amended witness: on the concretely constructed empty bot, a loadable
batch hits the attribute error. -/
theorem empty_bot_add_sources_never_builds_witness :
    mkBot demoEnv ([] : List Source) "m" 5 none none = .ok botEmpty ∧
    botEmpty.vector_store = none ∧
    loadData demoEnv [Source.file "ok.txt"] = .ok ["ok.txt"] ∧
    addSources demoEnv botEmpty [Source.file "ok.txt"] =
      .error (.attributeError "vector_store", botEmpty) :=
  ⟨by decide,
    (empty_bot_add_sources_never_builds demoEnv "m" 5 none none botEmpty (by decide)).1,
    by decide,
    ((empty_bot_add_sources_never_builds demoEnv "m" 5 none none botEmpty
        (by decide)).2 [Source.file "ok.txt"]).2.1 ["ok.txt"] (by decide)⟩

/-- C4: loader dispatch is by lowercase file-extension match over exactly the
table txt, pdf, csv, html/htm, md, xml, json, xls/xlsx for file sources and
by http/https scheme for url sources; an unmatched extension, an unmatched
scheme, or an unknown mode fails with the Unsupported-Format error naming the
offending source, and a batch containing such a source produces no
document (`_load_data` raises instead of returning). -/
theorem loader_dispatch_table {Doc Chunk : Type} (env : Env Doc Chunk) :
    (∀ path : String,
      (∃ l, dispatchSource (Source.file path) = .ok l) ↔
        (strEndsWith (strLower path) ".txt" = true ∨
         strEndsWith (strLower path) ".pdf" = true ∨
         strEndsWith (strLower path) ".csv" = true ∨
         strEndsWith (strLower path) ".html" = true ∨
         strEndsWith (strLower path) ".htm" = true ∨
         strEndsWith (strLower path) ".md" = true ∨
         strEndsWith (strLower path) ".xml" = true ∨
         strEndsWith (strLower path) ".json" = true ∨
         strEndsWith (strLower path) ".xls" = true ∨
         strEndsWith (strLower path) ".xlsx" = true)) ∧
    (∀ path : String,
      ¬(strEndsWith (strLower path) ".txt" = true ∨
        strEndsWith (strLower path) ".pdf" = true ∨
        strEndsWith (strLower path) ".csv" = true ∨
        strEndsWith (strLower path) ".html" = true ∨
        strEndsWith (strLower path) ".htm" = true ∨
        strEndsWith (strLower path) ".md" = true ∨
        strEndsWith (strLower path) ".xml" = true ∨
        strEndsWith (strLower path) ".json" = true ∨
        strEndsWith (strLower path) ".xls" = true ∨
        strEndsWith (strLower path) ".xlsx" = true) →
      dispatchSource (Source.file path) = .error (.unsupportedFileFormat path)) ∧
    (∀ address : String,
      (∃ l, dispatchSource (Source.url address) = .ok l) ↔
        (strStartsWith address "http://" = true ∨ strStartsWith address "https://" = true)) ∧
    (∀ address : String,
      ¬(strStartsWith address "http://" = true ∨ strStartsWith address "https://" = true) →
      dispatchSource (Source.url address) = .error (.unsupportedUrlFormat address)) ∧
    (∀ mode : String, dispatchSource (Source.unknown mode) = .error (.unsupportedMode mode)) ∧
    (∀ (sources : List Source) (src : Source) (e : PyError), src ∈ sources →
      dispatchSource src = .error e → ∃ e2, loadData env sources = .error e2) := by
  refine ⟨?_, ?_, ?_, ?_, fun mode => rfl, loadData_error_of_mem env⟩
  · intro path
    simp only [dispatchSource]
    split_ifs with h1 h2 h3 h4 h5 h6 h7 h8 <;> (simp_all [Bool.or_eq_true]; try tauto)
  · intro path h
    simp only [dispatchSource]
    split_ifs with h1 h2 h3 h4 h5 h6 h7 h8 <;> simp_all [Bool.or_eq_true]
  · intro address
    simp only [dispatchSource]
    split_ifs with h1 <;> simp_all [Bool.or_eq_true]
  · intro address h
    simp only [dispatchSource]
    split_ifs with h1 <;> simp_all [Bool.or_eq_true]

/-- C4 witness: a supported extension dispatches; an unsupported one, a
non-http url and an unknown mode each fail, and a batch containing the bad
file loads no document. -/
theorem loader_dispatch_table_witness :
    ((∃ l, dispatchSource (Source.file "a.TXT") = .ok l) ↔
      (strEndsWith (strLower "a.TXT") ".txt" = true ∨
       strEndsWith (strLower "a.TXT") ".pdf" = true ∨
       strEndsWith (strLower "a.TXT") ".csv" = true ∨
       strEndsWith (strLower "a.TXT") ".html" = true ∨
       strEndsWith (strLower "a.TXT") ".htm" = true ∨
       strEndsWith (strLower "a.TXT") ".md" = true ∨
       strEndsWith (strLower "a.TXT") ".xml" = true ∨
       strEndsWith (strLower "a.TXT") ".json" = true ∨
       strEndsWith (strLower "a.TXT") ".xls" = true ∨
       strEndsWith (strLower "a.TXT") ".xlsx" = true)) ∧
    dispatchSource (Source.file "v.exe") = .error (.unsupportedFileFormat "v.exe") ∧
    dispatchSource (Source.url "ftp://x") = .error (.unsupportedUrlFormat "ftp://x") ∧
    dispatchSource (Source.unknown "dir") = .error (.unsupportedMode "dir") ∧
    (∃ e2, loadData demoEnv [Source.file "a.txt", Source.file "v.exe"] = .error e2) :=
  ⟨(loader_dispatch_table demoEnv).1 "a.TXT",
   (loader_dispatch_table demoEnv).2.1 "v.exe" (by decide),
   (loader_dispatch_table demoEnv).2.2.2.1 "ftp://x" (by decide),
   (loader_dispatch_table demoEnv).2.2.2.2.1 "dir",
   (loader_dispatch_table demoEnv).2.2.2.2.2 [Source.file "a.txt", Source.file "v.exe"]
     (Source.file "v.exe") (.unsupportedFileFormat "v.exe") (by decide) (by decide)⟩

/-- C8: for a confluence source all five fields url, username, api_key,
space_key, limit are required: dispatch succeeds exactly when all are
present, a missing field raises the key error naming the first absent field
in the access order of the code, and a batch containing such a source loads
no document. -/
theorem confluence_requires_all_fields {Doc Chunk : Type} (env : Env Doc Chunk) :
    (∀ (url username api_key space_key : Option String) (limit : Option Nat),
      (∃ l, dispatchSource (Source.confluence url username api_key space_key limit) = .ok l) ↔
        (url.isSome = true ∧ username.isSome = true ∧ api_key.isSome = true ∧
         space_key.isSome = true ∧ limit.isSome = true)) ∧
    (∀ username api_key space_key limit,
      dispatchSource (Source.confluence none username api_key space_key limit) =
        .error (.keyError "url")) ∧
    (∀ url api_key space_key limit,
      dispatchSource (Source.confluence (some url) none api_key space_key limit) =
        .error (.keyError "username")) ∧
    (∀ url username space_key limit,
      dispatchSource (Source.confluence (some url) (some username) none space_key limit) =
        .error (.keyError "api_key")) ∧
    (∀ url username api_key limit,
      dispatchSource (Source.confluence (some url) (some username) (some api_key) none limit) =
        .error (.keyError "space_key")) ∧
    (∀ url username api_key space_key,
      dispatchSource (Source.confluence (some url) (some username) (some api_key)
          (some space_key) none) =
        .error (.keyError "limit")) ∧
    (∀ (sources : List Source) (src : Source) (e : PyError), src ∈ sources →
      dispatchSource src = .error e → ∃ e2, loadData env sources = .error e2) := by
  refine ⟨?_, fun _ _ _ _ => rfl, fun _ _ _ _ => rfl, fun _ _ _ _ => rfl,
    fun _ _ _ _ => rfl, fun _ _ _ _ => rfl, loadData_error_of_mem env⟩
  intro url username api_key space_key limit
  cases url <;> cases username <;> cases api_key <;> cases space_key <;> cases limit <;>
    simp [dispatchSource, require, Bind.bind, Except.bind]

/-- C8 witness: all five fields present dispatches; a source missing its
api_key raises the key error and aborts the batch load. -/
theorem confluence_requires_all_fields_witness :
    ((∃ l, dispatchSource (Source.confluence (some "u") (some "n") (some "k") (some "s")
        (some 50)) = .ok l) ↔
      ((some "u").isSome = true ∧ (some "n").isSome = true ∧ (some "k").isSome = true ∧
       (some "s").isSome = true ∧ (some (50 : Nat)).isSome = true)) ∧
    dispatchSource (Source.confluence (some "u") (some "n") none (some "s") (some 50)) =
      .error (.keyError "api_key") ∧
    (∃ e2, loadData demoEnv
      [Source.confluence (some "u") (some "n") none (some "s") (some 50)] = .error e2) :=
  ⟨(confluence_requires_all_fields demoEnv).1 (some "u") (some "n") (some "k") (some "s")
      (some 50),
   (confluence_requires_all_fields demoEnv).2.2.2.1 "u" "n" (some "s") (some 50),
   (confluence_requires_all_fields demoEnv).2.2.2.2.2.2
     [Source.confluence (some "u") (some "n") none (some "s") (some 50)]
     (Source.confluence (some "u") (some "n") none (some "s") (some 50))
     (.keyError "api_key") (by decide) (by decide)⟩

/-- C5: on a bot constructed with no sources the conversation chain is never
created — and `add_sources` can never change that, since it always raises on
such a bot — so every `chat` call fails with the Not-Ready error; on a bot
whose chain exists (the index was built), `chat` returns the generated
answer paired with the retrieved source chunks. -/
theorem chat_not_ready_or_answers {Doc Chunk : Type} (env : Env Doc Chunk) :
    (∀ em k sp d s0, mkBot env ([] : List Source) em k sp d = .ok s0 →
      s0.conversation_chain = none) ∧
    (∀ (s : BotState Doc Chunk) q, s.conversation_chain = none →
      chat env s q = .error (.notReady, s)) ∧
    (∀ em k sp d s0 newSources s1, mkBot env ([] : List Source) em k sp d = .ok s0 →
      addSources env s0 newSources ≠ .ok s1) ∧
    (∀ (s : BotState Doc Chunk) chain q, s.conversation_chain = some chain →
      ∃ s1, chat env s q = .ok
        (s1
        , env.generate q (env.retrieve (heapGet s.heap chain.retrieverRef).entries q chain.k)
            (s.chat_memory.getD [])
        , env.retrieve (heapGet s.heap chain.retrieverRef).entries q chain.k)) := by
  refine ⟨?_, ?_, ?_, ?_⟩
  · intro em k sp d s0 h
    rw [mkBot_nil] at h
    injection h with h
    subst h
    rfl
  · intro s q h
    simp [chat, h]
  · intro em k sp d s0 newSources s1 h
    rw [mkBot_nil] at h
    injection h with h
    subst h
    exact (addSources_none_store env _ rfl newSources).1 s1
  · intro s chain q h
    exact ⟨{ s with chat_memory := some (saveContext (s.chat_memory.getD []) q
        (env.generate q (env.retrieve (heapGet s.heap chain.retrieverRef).entries q chain.k)
          (s.chat_memory.getD []))) }, by simp [chat, h]⟩

/-- C5 witness: the empty bot's chat fails with Not-Ready; the built bot's
chat answers with the retrieved chunks. -/
theorem chat_not_ready_or_answers_witness :
    botEmpty.conversation_chain = none ∧
    chat demoEnv botEmpty "q" = .error (.notReady, botEmpty) ∧
    botA.conversation_chain = some { retrieverRef := 0, k := 5 } ∧
    (∃ s1, chat demoEnv botA "q" = .ok
      (s1
      , demoEnv.generate "q" (demoEnv.retrieve (heapGet botA.heap 0).entries "q" 5)
          (botA.chat_memory.getD [])
      , demoEnv.retrieve (heapGet botA.heap 0).entries "q" 5)) :=
  ⟨by decide,
   (chat_not_ready_or_answers demoEnv).2.1 botEmpty "q" (by decide),
   by decide,
   (chat_not_ready_or_answers demoEnv).2.2.2 botA { retrieverRef := 0, k := 5 } "q"
     (by decide)⟩

/-- Running `chat` on each query in order from a state whose chain exists
always succeeds and appends exactly one `(question, answer)` turn per call,
in call order, leaving the chain untouched. -/
lemma runChats_spec {Doc Chunk : Type} (env : Env Doc Chunk) (qs : List String) :
    ∀ (s : BotState Doc Chunk) (chain : Chain) (hist : List (String × String)),
      s.conversation_chain = some chain → s.chat_memory = some hist →
      ∃ s1 turns, runChats env s qs = .ok s1 ∧
        s1.chat_memory = some (hist ++ turns) ∧
        turns.map Prod.fst = qs ∧
        s1.conversation_chain = some chain := by
  induction qs with
  | nil =>
    intro s chain hist h hm
    exact ⟨s, [], rfl, by simp [hm], rfl, h⟩
  | cons q qs ih =>
    intro s chain hist h hm
    obtain ⟨s1, turns, h1, h2, h3, h4⟩ :=
      ih { s with chat_memory := some (saveContext hist q
              (env.generate q
                (env.retrieve (heapGet s.heap chain.retrieverRef).entries q chain.k) hist)) }
        chain (saveContext hist q
              (env.generate q
                (env.retrieve (heapGet s.heap chain.retrieverRef).entries q chain.k) hist))
        h rfl
    refine ⟨s1, (q, env.generate q
        (env.retrieve (heapGet s.heap chain.retrieverRef).entries q chain.k) hist) :: turns,
      ?_, ?_, by simp [h3], h4⟩
    · simp only [runChats, chat, h, hm, Option.getD_some]
      rw [← h]
      exact h1
    · simp only [h2, saveContext]
      simp
/-- `_initialize_conversation_chain` always installs a fresh empty memory. -/
lemma initChain_memory {Doc Chunk : Type} (s s1 : BotState Doc Chunk)
    (h : initializeConversationChain s = .ok s1) : s1.chat_memory = some [] := by
  simp only [initializeConversationChain] at h
  split at h
  · exact absurd h (by simp)
  · injection h with h
    subst h
    rfl

/-- C9 amended: chat appends exactly one `(question, answer)` turn per call
in call order — so after N successful chats with no intervening chain
re-initialization the history is exactly the N turns — and `add_sources` and
`remove_sources` leave the history untouched; but `change_prompt`,
`change_retriever` and `change_model` re-initialize the chain and reset the
history to empty. -/
theorem memory_append_only_between_reinits {Doc Chunk : Type} (env : Env Doc Chunk) :
    (∀ (s : BotState Doc Chunk) chain q s1 a r, s.conversation_chain = some chain →
      chat env s q = .ok (s1, a, r) →
      s1.chat_memory = some (saveContext (s.chat_memory.getD []) q a)) ∧
    (∀ (s : BotState Doc Chunk) chain hist qs,
      s.conversation_chain = some chain → s.chat_memory = some hist →
      ∃ s1 turns, runChats env s qs = .ok s1 ∧
        s1.chat_memory = some (hist ++ turns) ∧
        turns.map Prod.fst = qs ∧
        s1.conversation_chain = some chain) ∧
    (∀ (s : BotState Doc Chunk) newSources s1, addSources env s newSources = .ok s1 →
      s1.chat_memory = s.chat_memory) ∧
    (∀ (s : BotState Doc Chunk) rem s1, removeSources env s rem = .ok s1 →
      s1.chat_memory = s.chat_memory) ∧
    (∀ (s : BotState Doc Chunk) p s1, changePrompt s p = .ok s1 →
      s1.chat_memory = some []) ∧
    (∀ (s : BotState Doc Chunk) m s1, changeRetriever s m = .ok s1 →
      s1.chat_memory = some []) ∧
    (∀ (s : BotState Doc Chunk) s1, changeModel s = .ok s1 →
      s1.chat_memory = some []) := by
  refine ⟨?_, fun s chain hist qs h hm => runChats_spec env qs s chain hist h hm,
    ?_, ?_, ?_, ?_, ?_⟩
  · intro s chain q s1 a r h hc
    simp only [chat, h] at hc
    injection hc with hc
    injection hc with hc1 hc2
    injection hc2 with hc2 hc3
    subst hc1
    subst hc2
    rfl
  · intro s newSources s1 h
    simp only [addSources] at h
    split at h
    · exact absurd h (by simp)
    · split at h
      · exact absurd h (by simp)
      · injection h with h
        subst h
        rfl
  · intro s rem s1 h
    simp only [removeSources] at h
    split at h
    · exact absurd h (by simp)
    · injection h with h
      subst h
      rfl
  · intro s p s1 h
    simp only [changePrompt] at h
    split at h
    · exact absurd h (by simp)
    next s2 heq =>
      injection h with h
      subst h
      exact initChain_memory _ _ heq
  · intro s m s1 h
    simp only [changeRetriever] at h
    split at h
    · exact absurd h (by simp)
    next s2 r heq =>
      split at h
      · exact absurd h (by simp)
      next s3 heq2 =>
        injection h with h
        subst h
        exact initChain_memory _ _ heq2
  · intro s s1 h
    simp only [changeModel] at h
    split at h
    · exact absurd h (by simp)
    next s2 heq =>
      injection h with h
      subst h
      exact initChain_memory _ _ heq

/-- C9 amended witness: one chat appends its turn; two chats from the fresh
bot give exactly the two turns in order; `change_prompt` then resets. -/
theorem memory_append_only_between_reinits_witness :
    botA.conversation_chain = some { retrieverRef := 0, k := 5 } ∧
    chat demoEnv botA "q1" = .ok (botAChat.1, "ans:q1", ["a.txt"]) ∧
    botAChat.1.chat_memory = some (saveContext (botA.chat_memory.getD []) "q1" "ans:q1") ∧
    (∃ s1 turns, runChats demoEnv botA ["q1", "q2"] = .ok s1 ∧
      s1.chat_memory = some ([] ++ turns) ∧
      turns.map Prod.fst = ["q1", "q2"] ∧
      s1.conversation_chain = some { retrieverRef := 0, k := 5 }) ∧
    changePrompt botAChat.1 "p" = .ok botAChatP ∧
    botAChatP.chat_memory = some [] :=
  ⟨by decide, by decide,
   (memory_append_only_between_reinits demoEnv).1 botA { retrieverRef := 0, k := 5 }
     "q1" botAChat.1 "ans:q1" ["a.txt"] (by decide) (by decide),
   (memory_append_only_between_reinits demoEnv).2.1 botA { retrieverRef := 0, k := 5 }
     [] ["q1", "q2"] (by decide) (by decide),
   by decide,
   (memory_append_only_between_reinits demoEnv).2.2.2.2.1 botAChat.1 "p" botAChatP
     (by decide)⟩

/-- C7: every mutating index operation — the initial build, `add_sources`,
and the `remove_sources` rebuild — ends with a save, so after each the
persisted copy at `save_path` equals the entries of the in-memory store
referenced by `vector_store`; and at construction, load is preferred over
build exactly when `save_path` already exists: with no persisted index the
store is built from the loaded and split sources and saved, while with a
persisted index its content is loaded unchanged and nothing is rebuilt or
saved. -/
theorem index_mutations_persist {Doc Chunk : Type} (env : Env Doc Chunk) :
    (∀ (srcs : List Source) em k sp s0, srcs ≠ [] →
      mkBot env srcs em k sp none = .ok s0 →
      ∃ r documents, s0.vector_store = some r ∧
        loadData env srcs = .ok documents ∧
        (heapGet s0.heap r).entries = (env.split documents).map (fun c => (c, em)) ∧
        s0.disk = some (heapGet s0.heap r).entries) ∧
    (∀ (srcs : List Source) em k sp d s0, srcs ≠ [] →
      mkBot env srcs em k sp (some d) = .ok s0 →
      s0.disk = some d ∧ ∃ r, s0.vector_store = some r ∧ (heapGet s0.heap r).entries = d) ∧
    (∀ (s : BotState Doc Chunk) newSources s1 r, addSources env s newSources = .ok s1 →
      s.vector_store = some r → r < s.heap.length →
      s1.vector_store = some r ∧ s1.disk = some (heapGet s1.heap r).entries) ∧
    (∀ (s : BotState Doc Chunk) rem s1, removeSources env s rem = .ok s1 →
      ∃ r, s1.vector_store = some r ∧ s1.disk = some (heapGet s1.heap r).entries) := by
  refine ⟨?_, ?_, ?_, ?_⟩
  · intro srcs em k sp s0 hne h
    have he : srcs.isEmpty = false := by
      cases srcs with
      | nil => exact absurd rfl hne
      | cons a as => rfl
    cases hl : loadData env srcs with
    | error e =>
      simp [mkBot, he, hl, Bind.bind, Except.bind] at h
    | ok documents =>
      simp only [mkBot, he, hl, Bool.false_eq_true, if_false, Bind.bind, Except.bind,
        createVectorStore, initializeConversationChain] at h
      injection h with h
      subst h
      exact ⟨0, documents, rfl, rfl, by simp [heapGet, VectorStore.fromDocuments],
        by simp [heapGet, VectorStore.fromDocuments]⟩
  · intro srcs em k sp d s0 hne h
    have he : srcs.isEmpty = false := by
      cases srcs with
      | nil => exact absurd rfl hne
      | cons a as => rfl
    cases hl : loadData env srcs with
    | error e =>
      simp [mkBot, he, hl, Bind.bind, Except.bind] at h
    | ok documents =>
      simp only [mkBot, he, hl, Bool.false_eq_true, if_false, Bind.bind, Except.bind,
        createVectorStore, initializeConversationChain] at h
      injection h with h
      subst h
      exact ⟨rfl, 0, rfl, by simp [heapGet, VectorStore.loadLocal]⟩
  · intro s newSources s1 r h hvs hr
    simp only [addSources] at h
    split at h
    · exact absurd h (by simp)
    · split at h
      · exact absurd h (by simp)
      next r2 heq =>
        rw [hvs] at heq
        injection heq with heq
        subst heq
        injection h with h
        subst h
        exact ⟨hvs, by simp [heapGet_set_eq s.heap r _ hr]⟩
  · intro s rem s1 h
    simp only [removeSources] at h
    split at h
    · exact absurd h (by simp)
    next documents hl =>
      injection h with h
      subst h
      exact ⟨s.heap.length, rfl, by simp [heapGet_concat]⟩

/-- C7 witness: the fresh build saves what it built; construction over an
existing save path loads its content and leaves the disk unchanged;
`add_sources` and `remove_sources` leave the disk equal to the current
in-memory store. -/
theorem index_mutations_persist_witness :
    (mkBot demoEnv [Source.file "a.txt"] "modelA" 5 none none = .ok botA ∧
      (∃ r documents, botA.vector_store = some r ∧
        loadData demoEnv [Source.file "a.txt"] = .ok documents ∧
        (heapGet botA.heap r).entries = (demoEnv.split documents).map (fun c => (c, "modelA")) ∧
        botA.disk = some (heapGet botA.heap r).entries)) ∧
    (mkBot demoEnv [Source.file "a.txt"] "m2" 5 none (some [("x", "m0")]) = .ok botLoaded ∧
      (botLoaded.disk = some [("x", "m0")] ∧
        ∃ r, botLoaded.vector_store = some r ∧
          (heapGet botLoaded.heap r).entries = [("x", "m0")])) ∧
    (addSources demoEnv botA [Source.file "c.txt"] = .ok botAAdd ∧
      (botAAdd.vector_store = some 0 ∧
        botAAdd.disk = some (heapGet botAAdd.heap 0).entries)) ∧
    (removeSources demoEnv botTwo [Source.file "b.md"] = .ok botTwoR ∧
      (∃ r, botTwoR.vector_store = some r ∧
        botTwoR.disk = some (heapGet botTwoR.heap r).entries)) :=
  ⟨⟨by decide, (index_mutations_persist demoEnv).1 [Source.file "a.txt"] "modelA" 5 none botA
      (by decide) (by decide)⟩,
   ⟨by decide, (index_mutations_persist demoEnv).2.1 [Source.file "a.txt"] "m2" 5 none
      [("x", "m0")] botLoaded (by decide) (by decide)⟩,
   ⟨by decide, (index_mutations_persist demoEnv).2.2.1 botA [Source.file "c.txt"] botAAdd 0
      (by decide) (by decide) (by decide)⟩,
   ⟨by decide, (index_mutations_persist demoEnv).2.2.2 botTwo [Source.file "b.md"] botTwoR
      (by decide)⟩⟩

end RAG
